import Mathlib

/-!
Verification of the `embedded-usb-host` crate's pipe engine, address pool,
descriptor parser, control-request bitfields and device-lifecycle stack.

Each Lean definition is a shallow embedding of the Rust item of the same
name.  Hardware registers are modelled by explicit flag records; each poll
iteration of a busy-wait loop consumes one record from a list, so that the
loops become structural recursion over the list of hardware observations.
-/

set_option maxRecDepth 10000

deriving instance DecidableEq for Except

namespace UsbHost

/-- `PipeErr` from `src/atsamd/pipe.rs`. -/
inductive PipeErr where
  | ShortPacket
  | InvalidPipe
  | InvalidToken
  | InvalidRequest
  | Stall
  | TransferFail
  | PipeErr
  | Flow
  | HardwareTimeout
  | DataToggle
  | SoftwareTimeout
  | Other (s : String)
  deriving Repr, DecidableEq

/-- `PToken` from `src/atsamd/pipe.rs` (pipe token type written to PCFG). -/
inductive PToken where
  | Setup
  | In
  | Out
  | Reserved
  deriving Repr, DecidableEq

/-- `TransferType` of an endpoint (2-bit attribute encoding). -/
inductive TransferType where
  | Control
  | Isochronous
  | Bulk
  | Interrupt
  deriving Repr, DecidableEq

/-- The endpoint state the pipe engine reads and writes: the two data-toggle
bits plus the static attributes used by `dispatch_retries`
(`transfer_type`, `max_packet_size`).  Models the `HostEndpoint`
(`Endpoint`) trait object of `src/endpoint.rs` as seen from
`src/atsamd/pipe.rs`. -/
structure Endpoint where
  transfer_type : TransferType
  max_packet_size : Nat
  in_toggle : Bool
  out_toggle : Bool
  deriving Repr, DecidableEq

/-- One observation of the pipe's hardware flags: the PINTFLAG register bits
(`trcpt0`, `txstp`, `trfail`, `stall`) and the per-bank status registers
(`status_bk.errorflow`, `status_pipe.touter`, `status_pipe.dtgler`).
`dispatch_result` reads exactly these bits; the silicon also exposes a
STALL interrupt flag, recorded here as `stall`. -/
structure PipeHwFlags where
  trcpt0 : Bool
  txstp : Bool
  trfail : Bool
  stall : Bool
  errorflow : Bool
  touter : Bool
  dtgler : Bool
  deriving Repr, DecidableEq

/-- `Pipe::is_transfer_complete` from `src/atsamd/pipe.rs`: per-token
completion flag check (txstp for SETUP, trcpt0 for IN/OUT, error on a
reserved token). -/
def is_transfer_complete (token : PToken) (hw : PipeHwFlags) :
    Except PipeErr Bool :=
  match token with
  | .Setup => .ok hw.txstp
  | .In => .ok hw.trcpt0
  | .Out => .ok hw.trcpt0
  | .Reserved => .error .InvalidToken

/-- `Pipe::dispatch_result` from `src/atsamd/pipe.rs`: completion check and
error classification, in the priority order of the source (complete,
errorflow, touter, dtgler, trfail, otherwise still pending).  Note that no
branch of the source inspects a STALL flag. -/
def dispatch_result (token : PToken) (hw : PipeHwFlags) :
    Except PipeErr Bool :=
  match is_transfer_complete token hw with
  | .error e => .error e
  | .ok true => .ok true
  | .ok false =>
    if hw.errorflow then .error .Flow
    else if hw.touter then .error .HardwareTimeout
    else if hw.dtgler then .error .DataToggle
    else if hw.trfail then .error .TransferFail
    else .ok false

/-- `Pipe::data_toggle` from `src/atsamd/pipe.rs`: corrective toggle flip
applied on a `DataToggle` error.  For IN/OUT the endpoint's stored toggle
is complemented (and written to the hardware DTGL bit, not modelled); for
SETUP the hardware bit is cleared and the endpoint is untouched. -/
def data_toggle (ep : Endpoint) (token : PToken) : Endpoint :=
  match token with
  | .In => { ep with in_toggle := !ep.in_toggle }
  | .Out => { ep with out_toggle := !ep.out_toggle }
  | .Setup => ep
  | .Reserved => ep

/-- `Pipe::dispatch_packet` from `src/atsamd/pipe.rs`, restricted to its
effect on the endpoint state: a SETUP token presets both endpoint toggles
to 1 (cf USB 2.0 8.6.1); IN/OUT only copy the endpoint's saved toggle into
the hardware DTGL bit (not modelled) and leave the endpoint unchanged. -/
def dispatch_packet (ep : Endpoint) (token : PToken) : Endpoint :=
  match token with
  | .Setup => { ep with in_toggle := true, out_toggle := true }
  | _ => ep

/-- NAK_LIMIT from `src/atsamd/pipe.rs` (and `src/atsamd/host.rs`): how many
times to retry a transaction that has transient errors. -/
def NAK_LIMIT : Nat := 15

/-- USB_TIMEOUT from `src/atsamd/pipe.rs`: milliseconds before a control
request is abandoned. -/
def USB_TIMEOUT : Nat := 5000

/-- One busy-wait iteration's inputs: the value `after_millis(0)` returns
(current time) and the hardware flags read by `dispatch_result`. -/
structure Poll where
  now : Nat
  hw : PipeHwFlags
  deriving Repr, DecidableEq

/-- Outcome of `dispatch_retries`: success, an error, or the poll list was
exhausted while the hardware was still pending (the Rust loop would still
be spinning). -/
inductive DispatchOutcome where
  | ok
  | err (e : PipeErr)
  | spinning
  deriving Repr, DecidableEq

/-- The `loop` body of `Pipe::dispatch_retries` from `src/atsamd/pipe.rs`.
Each iteration consumes one `Poll`; `untl` is the `until` deadline computed
before the loop; `naks` is the running transient-error count.  Returns the
endpoint as mutated through `ep.set_in_toggle` / `ep.set_out_toggle`. -/
def dispatch_retries_loop (token : PToken) (retries : Nat) (untl : Nat)
    (naks : Nat) (ep : Endpoint) (polls : List Poll) :
    Endpoint × DispatchOutcome :=
  match polls with
  | [] => (ep, .spinning)
  | p :: rest =>
    if p.now > untl then (ep, .err .SoftwareTimeout)
    else
      match dispatch_result token p.hw with
      | .ok true =>
        -- Swap sequence bits on successful transfer.
        if token = .In then
          ({ ep with in_toggle := !ep.in_toggle }, .ok)
        else if token = .Out then
          ({ ep with out_toggle := !ep.out_toggle }, .ok)
        else (ep, .ok)
      | .ok false => dispatch_retries_loop token retries untl naks ep rest
      | .error e =>
        match e with
        | .DataToggle =>
          dispatch_retries_loop token retries untl naks (data_toggle ep token) rest
        | .Flow =>
          if ep.transfer_type = .Interrupt then (ep, .err .Flow)
          else if naks + 1 > retries then (ep, .err .Flow)
          else dispatch_retries_loop token retries untl (naks + 1) ep rest
        | .Stall => (ep, .err .Stall)
        | _ =>
          if naks + 1 > retries then (ep, .err e)
          else dispatch_retries_loop token retries untl (naks + 1) ep rest

/-- `Pipe::dispatch_retries` from `src/atsamd/pipe.rs`: submit the token via
`dispatch_packet`, then poll with deadline `t0 + USB_TIMEOUT` and a fresh
NAK counter. -/
def dispatch_retries (token : PToken) (retries : Nat) (t0 : Nat)
    (ep : Endpoint) (polls : List Poll) : Endpoint × DispatchOutcome :=
  dispatch_retries_loop token retries (t0 + USB_TIMEOUT) 0
    (dispatch_packet ep token) polls

/-- One iteration's input to the `in_transfer` receive loop: either the
inner `dispatch_retries` failed with an error (propagated by `?`), or it
succeeded and the pipe descriptor's `byte_count` field then read back the
number of bytes the hardware stored. -/
inductive InStep where
  | failed (e : PipeErr)
  | received (byte_count : Nat)
  deriving Repr, DecidableEq

/-- Result of a transfer loop: normal return, error return, the poll input
ran out mid-loop (the Rust loop would still be running), or a Rust
`assert!` / arithmetic panic fired. -/
inductive XferResult where
  | ok (n : Nat)
  | err (e : PipeErr)
  | starved
  | panicked
  deriving Repr, DecidableEq

/-- The `while bytes_received < buf.len()` loop of `Pipe::in_transfer` from
`src/atsamd/pipe.rs`, followed by the function's final
short-packet check.  `packet_size` is the constant the received count is
compared against (the source hardcodes `let packet_size = 8`);
`buf_len` is `buf.len()`; `received` is the running `bytes_received` sum.
A packet shorter than `packet_size` breaks out of the loop; afterwards the
source returns `Err(ShortPacket)` when `bytes_received < buf.len()` and
`Ok(bytes_received)` otherwise.  The `assert!(bytes_received <= buf.len())`
after a full-size packet is modelled as `panicked`. -/
def in_transfer_loop (packet_size buf_len received : Nat)
    (steps : List InStep) : XferResult :=
  if received < buf_len then
    match steps with
    | [] => .starved
    | .failed e :: _ => .err e
    | .received recvd :: rest =>
      if recvd < packet_size then
        if received + recvd < buf_len then .err .ShortPacket
        else .ok (received + recvd)
      else if received + recvd ≤ buf_len then
        in_transfer_loop packet_size buf_len (received + recvd) rest
      else .panicked
  else .ok received

/-- `Pipe::in_transfer` from `src/atsamd/pipe.rs`: the receive loop with the
hardcoded `packet_size = 8` and `bytes_received` starting at 0.  The
endpoint's `max_packet_size` is not consulted by the source. -/
def in_transfer (buf_len : Nat) (steps : List InStep) : XferResult :=
  in_transfer_loop 8 buf_len 0 steps

/-- `RequestDirection` from `src/setup.rs` / `src/control.rs`. -/
inductive RequestDirection where
  | HostToDevice
  | DeviceToHost
  deriving Repr, DecidableEq

/-- Discriminant value of `RequestDirection` (`v as u8`). -/
def RequestDirection.val : RequestDirection → Nat
  | .HostToDevice => 0x00
  | .DeviceToHost => 0x80

/-- `RequestKind` from `src/setup.rs` / `src/control.rs`. -/
inductive RequestKind where
  | Standard
  | Class
  | Vendor
  deriving Repr, DecidableEq

/-- Discriminant value of `RequestKind` (`v as u8`). -/
def RequestKind.val : RequestKind → Nat
  | .Standard => 0x00
  | .Class => 0x20
  | .Vendor => 0x40

/-- `RequestRecipient` from `src/setup.rs` / `src/control.rs`. -/
inductive RequestRecipient where
  | Device
  | Interface
  | Endpoint
  | Other
  deriving Repr, DecidableEq

/-- Discriminant value of `RequestRecipient` (`v as u8`). -/
def RequestRecipient.val : RequestRecipient → Nat
  | .Device => 0x00
  | .Interface => 0x01
  | .Endpoint => 0x02
  | .Other => 0x03

namespace RequestType

/-- `RequestType::direction` from `src/control.rs`:
`RequestDirection::from_repr(self.0 & (0x1 << 7))` (the `src/setup.rs`
draft is identical with `Result` in place of `Option`). -/
def direction (b : Nat) : Option RequestDirection :=
  let m := b &&& (0x1 <<< 7)
  if m = 0x00 then some .HostToDevice
  else if m = 0x80 then some .DeviceToHost
  else none

/-- `RequestType::set_direction` from `src/control.rs` / `src/setup.rs`:
`self.0 &= !(0x1 << 7); self.0 |= v as u8 & 0x1` (the u8 complement of
`0x1 << 7` is `0x7f`). -/
def set_direction (b : Nat) (v : RequestDirection) : Nat :=
  (b &&& 0x7f) ||| (v.val &&& 0x1)

/-- `RequestType::kind` from `src/control.rs`:
`RequestKind::from_repr(self.0 & (0x3 << 5))`. -/
def kind (b : Nat) : Option RequestKind :=
  let m := b &&& (0x3 <<< 5)
  if m = 0x00 then some .Standard
  else if m = 0x20 then some .Class
  else if m = 0x40 then some .Vendor
  else none

/-- `RequestType::set_kind` from `src/control.rs` / `src/setup.rs`:
`self.0 &= !(0x3 << 5); self.0 |= v as u8 & 0x3` (the u8 complement of
`0x3 << 5` is `0x9f`). -/
def set_kind (b : Nat) (v : RequestKind) : Nat :=
  (b &&& 0x9f) ||| (v.val &&& 0x3)

/-- `RequestType::recipient` from `src/control.rs`:
`RequestRecipient::from_repr(self.0 & (0x1f << 0))`. -/
def recipient (b : Nat) : Option RequestRecipient :=
  let m := b &&& 0x1f
  if m = 0x00 then some .Device
  else if m = 0x01 then some .Interface
  else if m = 0x02 then some .Endpoint
  else if m = 0x03 then some .Other
  else none

/-- `RequestType::set_recipient` from `src/control.rs` / `src/setup.rs`:
`self.0 &= !(0x1f << 0); self.0 |= v as u8 & 0x1f`. -/
def set_recipient (b : Nat) (v : RequestRecipient) : Nat :=
  (b &&& 0xe0) ||| (v.val &&& 0x1f)

/-- `From<(RequestDirection, RequestKind, RequestRecipient)> for RequestType`
from `src/control.rs` / `src/setup.rs`: `Self(v.0 as u8 | v.1 as u8 | v.2 as u8)`. -/
def from_triple (d : RequestDirection) (k : RequestKind)
    (r : RequestRecipient) : Nat :=
  d.val ||| k.val ||| r.val

end RequestType

/-- The stage plan `Pipe::control_transfer` (`src/atsamd/pipe.rs`) executes:
the `w_length` stored in the setup packet, the direction of the DATA stage
when one is issued (`if let Some(buf) = buf`), and the token of the STATUS
stage (`DeviceToHost => PToken::Out, HostToDevice => PToken::In`). -/
structure ControlStages where
  w_length : Nat
  data_stage : Option RequestDirection
  status_token : PToken
  deriving Repr, DecidableEq

/-- Stage selection of `Pipe::control_transfer` from `src/atsamd/pipe.rs`:
`buf` is `Some buf_len` when a data buffer was supplied.  The setup
packet's `w_length` is the buffer length (0 when absent); a DATA stage is
issued iff a buffer was supplied, in the direction of `bm_request_type`;
the STATUS token is `Out` for `DeviceToHost` and `In` for `HostToDevice`.
A missing direction bit-pattern yields `Err(InvalidRequest)`. -/
def control_transfer_stages (bm_request_type : Nat) (buf : Option Nat) :
    Except PipeErr ControlStages :=
  let buflen := buf.getD 0
  match RequestType.direction bm_request_type with
  | none => .error .InvalidRequest
  | some dir =>
    .ok { w_length := buflen
          data_stage := buf.map fun _ => dir
          status_token :=
            match dir with
            | .DeviceToHost => PToken.Out
            | .HostToDevice => PToken.In }

/-- The PCKSIZE.SIZE field variants from `src/atsamd/pipe/pck_size.rs`. -/
inductive SizeW where
  | Bytes8
  | Bytes16
  | Bytes32
  | Bytes64
  | Bytes128
  | Bytes256
  | Bytes512
  | Bytes1024
  deriving Repr, DecidableEq

/-- The packet size class in bytes denoted by a `SizeW` variant. -/
def SizeW.bytes : SizeW → Nat
  | .Bytes8 => 8
  | .Bytes16 => 16
  | .Bytes32 => 32
  | .Bytes64 => 64
  | .Bytes128 => 128
  | .Bytes256 => 256
  | .Bytes512 => 512
  | .Bytes1024 => 1024

/-- The packet-size class selection of `PipeTable::pipe_for` from
`src/atsamd/pipe.rs` (the `pdesc.bank0.pcksize.write` chain over
`endpoint.max_packet_size()`). -/
def pipe_for_size (mps : Nat) : SizeW :=
  if mps ≥ 1023 then .Bytes1024
  else if mps ≥ 512 then .Bytes512
  else if mps ≥ 256 then .Bytes256
  else if mps ≥ 128 then .Bytes128
  else if mps ≥ 64 then .Bytes64
  else if mps ≥ 32 then .Bytes32
  else if mps ≥ 16 then .Bytes16
  else .Bytes8

/-! ### 128-bit machine integers

`AddressPool` stores its bitmap in a Rust `u128`.  The bitwise primitives
are modelled structurally with 128 bits of fuel so that every operation is
kernel-computable. -/

/-- Bit length of a natural number, with fuel (`0` for `0`). -/
def bit_len_aux : Nat → Nat → Nat
  | 0, _ => 0
  | fuel + 1, x => if x = 0 then 0 else bit_len_aux fuel (x / 2) + 1

/-- `u128::leading_zeros`: 128 minus the bit length. -/
def leading_zeros_u128 (x : Nat) : Nat :=
  128 - bit_len_aux 128 x

/-- Bitwise combination of the low 128 bits of two naturals. -/
def bitwise_u128_aux (f : Bool → Bool → Bool) : Nat → Nat → Nat → Nat
  | 0, _, _ => 0
  | fuel + 1, a, b =>
    bitwise_u128_aux f fuel (a / 2) (b / 2) * 2 +
      (if f (a % 2 = 1) (b % 2 = 1) then 1 else 0)

/-- `u128` bitwise AND. -/
def and_u128 (a b : Nat) : Nat := bitwise_u128_aux (· && ·) 128 a b

/-- `u128` bitwise OR. -/
def or_u128 (a b : Nat) : Nat := bitwise_u128_aux (· || ·) 128 a b

/-- `u128` bitwise NOT (complement within 128 bits). -/
def not_u128 (a : Nat) : Nat := bitwise_u128_aux (fun x _ => !x) 128 a a

/-- `MAX_DEVICES` from `src/address.rs`. -/
def MAX_DEVICES : Nat := 127

/-- `FULL_POOL` from `src/address.rs`: `u128::MAX >> 1` (bits 0..=126 set). -/
def FULL_POOL : Nat := 2 ^ 127 - 1

/-- `AddressPool::take_next` from `src/address.rs`:
`next = pool_bits.leading_zeros()`; when `next <= MAX_DEVICES`, clear bit
`128 - (next + 1)` of the pool (`pool_bits &= !(1 << (128 - (next + 1)))`)
and return `next` as the allocated address. -/
def take_next (pool : Nat) : Option Nat × Nat :=
  let next := leading_zeros_u128 pool
  if next ≤ MAX_DEVICES then
    (some next, and_u128 pool (not_u128 (2 ^ (128 - (next + 1)))))
  else (none, pool)

/-- `AddressPool::put_back` from `src/address.rs`: when
`addr <= MAX_DEVICES`, set bit `addr` of the pool
(`pool_bits |= 1 << addr`). -/
def put_back (pool : Nat) (addr : Nat) : Nat :=
  if addr ≤ MAX_DEVICES then or_u128 pool (2 ^ addr) else pool

/-! ### Descriptor parsing -/

/-- Outcome of one `DescriptorParser::next` step: `stop` models a `None`
return, `yielded new_pos` models `Some(descriptor)` with the cursor moved
to `new_pos`, and `panicked` models a Rust panic (out-of-bounds slice
index or usize underflow). -/
inductive ParseStep where
  | stop
  | panicked
  | yielded (new_pos : Nat)
  deriving Repr, DecidableEq

/-- `DescriptorParser::next` from `src/parser.rs`, projected onto cursor
movement.  In source order: return `None` when the cursor is at or past
the end; read `desc_len = buf[pos]`; return `None` when it is 0 or when
`pos + desc_len` exceeds the buffer; then read `desc_type = buf[pos + 1]`
— an unchecked index that panics when `pos + 1` is out of bounds (possible
when `desc_len = 1`); a String descriptor (type 3) builds a slice of
`desc_len - 2` bytes, a usize subtraction that panics when `desc_len < 2`;
otherwise yield with the cursor advanced to `pos + desc_len`.  (Which
`DescriptorRef` variant is yielded, and the interface class/subclass
bookkeeping, do not affect cursor movement and are not modelled.) -/
def descriptor_next (buf : List Nat) (pos : Nat) : ParseStep :=
  if pos ≥ buf.length then .stop
  else
    let desc_len := buf.getD pos 0
    if desc_len = 0 then .stop
    else if pos + desc_len > buf.length then .stop
    else if buf.length ≤ pos + 1 then .panicked
    else
      let desc_type := buf.getD (pos + 1) 0
      if desc_type = 3 ∧ desc_len < 2 then .panicked
      else .yielded (pos + desc_len)

/-! ### Device lifecycle (stack.rs) -/

/-- Modelled from the spec: `UsbError` is referenced throughout the source
(`src/stack.rs`, `src/device.rs`, `src/atsamd/pipe.rs`) but its defining
module is not among the source files; the variants follow spec section 7
and the constructors actually used in the source.  The wrapped transfer
errors carry their pipe-level cause; the endpoint-context payload is
omitted. -/
inductive UsbError where
  | Transient (s : String)
  | Permanent (s : String)
  | TooManyDevices
  | TooManyDrivers
  | TooManyEndpoints
  | DescriptorTooBig
  | InvalidDescriptor
  | NoDriver
  | TransferTypeMismatch
  | DirectionMismatch
  | GetDescriptor (e : PipeErr)
  | SetAddress (e : PipeErr)
  | SetConfiguration (e : PipeErr)
  | SetInterface (e : PipeErr)
  | BulkIn (e : PipeErr)
  | BulkOut (e : PipeErr)
  | Interrupt (e : PipeErr)
  deriving Repr, DecidableEq

/-- `DeviceState` from `src/device.rs`.  Deadlines are absolute tick counts. -/
inductive DeviceState where
  | SetAddress
  | SetConfig (untl : Nat)
  | SetInterface (iface : Nat) (untl : Nat)
  | SetReport (iface : Nat)
  | SetIdle
  | Running
  | Orphan
  deriving Repr, DecidableEq

/-- `Device` from `src/device.rs`. -/
structure Device where
  device_address : Nat
  state : DeviceState
  max_packet_len : Nat
  toggle : Bool
  error : Option UsbError
  deriving Repr, DecidableEq

/-- One entry of `UsbStack::devices`: the `(Device, Option<DriverIdx>)`
pair held in each `RefCell`. -/
structure DevCell where
  dev : Device
  driver_idx : Option Nat
  deriving Repr, DecidableEq

/-- A transfer-issuing sub-operation invoked by `UsbStack::update_dev`;
collected as a trace so "no further transfers are issued" is expressible. -/
inductive StackAction where
  | addressDev
  | configureDev
  | setInterfaceStep
  | driverRun
  deriving Repr, DecidableEq

/-- Oracle for the effects `UsbStack::update_dev` triggers through the
`UsbHost` trait object and through the registered driver: the result (and
device mutation) of `address_dev`, `configure_dev`, `Device::set_interface`
and `Driver::run`, the host's `delay_done` answer, the deadline
`after_millis(10)` returns, and the state `next_state_after_interface_set`
returns.  These live behind trait objects or issue bus traffic, so they are
parameters of the shallow embedding. -/
structure UpdateEnv where
  delay_done : Nat → Bool
  after10 : Nat
  address_dev : Device → Device × Except UsbError Unit
  configure_dev : Device → Device × Except UsbError (Option (Nat × Nat))
  set_interface : Device → Nat → Device × Except UsbError Unit
  driver_next_state : DeviceState
  driver_run : Device → Device × Except UsbError Unit

/-- `UsbStack::update_dev` from `src/stack.rs`.  The first statement after
borrowing the cell is the freeze guard: `if dev_drv.0.error().is_some()
{ return Ok(()); }`.  Then the state match: `SetAddress` runs
`address_dev` and on success advances to `SetConfig(after_millis(10))`;
`SetConfig(t)` waits for `delay_done(t)` then runs `configure_dev`,
advancing to `SetInterface(iface, after_millis(10))` with the matched
driver index, or to `Orphan`; `SetInterface(iface, t)` waits, runs
`set_interface` (whose error is only logged), then takes the driver's
`next_state_after_interface_set`, or fails with `NoDriver`; `Orphan` is a
no-op; every other state runs the registered driver or fails with
`NoDriver`.  Returns the updated cell, the `Result`, and the trace of
transfer-issuing sub-operations. -/
def update_dev (env : UpdateEnv) (cell : DevCell) :
    DevCell × Except UsbError Unit × List StackAction :=
  if cell.dev.error.isSome then (cell, .ok (), [])
  else
    match cell.dev.state with
    | .SetAddress =>
      match env.address_dev cell.dev with
      | (d, .error e) => ({ cell with dev := d }, .error e, [.addressDev])
      | (d, .ok _) =>
        ({ cell with dev := { d with state := .SetConfig env.after10 } },
          .ok (), [.addressDev])
    | .SetConfig t =>
      if env.delay_done t then
        match env.configure_dev cell.dev with
        | (d, .error e) => ({ cell with dev := d }, .error e, [.configureDev])
        | (d, .ok (some (idx, iface))) =>
          ({ dev := { d with state := .SetInterface iface env.after10 },
             driver_idx := some idx }, .ok (), [.configureDev])
        | (d, .ok none) =>
          ({ cell with dev := { d with state := .Orphan } },
            .ok (), [.configureDev])
      else (cell, .ok (), [])
    | .SetInterface iface t =>
      if env.delay_done t then
        match env.set_interface cell.dev iface with
        | (d, _) =>
          match cell.driver_idx with
          | some _ =>
            ({ cell with dev := { d with state := env.driver_next_state } },
              .ok (), [.setInterfaceStep])
          | none => ({ cell with dev := d }, .error .NoDriver, [.setInterfaceStep])
      else (cell, .ok (), [])
    | .Orphan => (cell, .ok (), [])
    | _ =>
      match cell.driver_idx with
      | some _ =>
        match env.driver_run cell.dev with
        | (d, .ok _) => ({ cell with dev := d }, .ok (), [.driverRun])
        | (d, .error e) => ({ cell with dev := d }, .error e, [.driverRun])
      | none => (cell, .error .NoDriver, [])

/-- The per-device step of `UsbStack::update` from `src/stack.rs`: call
`update_dev` and, on `Err(err)`, store the error in the device's error
slot (`dev.set_error(err)`). -/
def update_cycle (env : UpdateEnv) (cell : DevCell) : DevCell :=
  match update_dev env cell with
  | (c, .ok _, _) => c
  | (c, .error e, _) => { c with dev := { c.dev with error := some e } }

/-- A lifecycle environment whose oracle answers are all trivial; used to
instantiate universally quantified lifecycle theorems. -/
def trivial_env : UpdateEnv where
  delay_done := fun _ => true
  after10 := 10
  address_dev := fun d => (d, .ok ())
  configure_dev := fun d => (d, .ok none)
  set_interface := fun d _ => (d, .ok ())
  driver_next_state := .Running
  driver_run := fun d => (d, .ok ())

/-- A device cell whose error slot is already populated. -/
def frozen_cell : DevCell :=
  { dev := { device_address := 1, state := .Running, max_packet_len := 8,
             toggle := false, error := some .NoDriver },
    driver_idx := some 0 }

/-- `Nat.log 2` on an interval between consecutive powers of two. -/
theorem log2_interval (m k : Nat) (h1 : 2 ^ k ≤ m) (h2 : m < 2 ^ (k + 1)) :
    Nat.log 2 m = k :=
  Nat.log_eq_of_pow_le_of_lt_pow h1 h2

/-- Masking twice with disjoint masks clears everything. -/
theorem and_and_eq_zero (b x y : Nat) (h : x &&& y = 0) :
    b &&& x &&& y = 0 := by
  rw [Nat.and_assoc, h, Nat.and_zero]

/-! ## Theorems -/

/-- C1 counterexample: an IN transfer into a 16-byte buffer that receives a
single 4-byte packet (shorter than any max packet size and than the
hardcoded packet size 8) terminates but returns `Err(ShortPacket)`, not a
successful 4-byte count as the claim states. -/
theorem c1_short_packet_is_error :
    in_transfer 16 [InStep.received 4] = .err .ShortPacket ∧
      in_transfer 16 [InStep.received 4] ≠ .ok 4 := by
  decide

/-- C1 (amended): in `Pipe::in_transfer`, a packet whose byte-count is less
than the hardcoded packet size 8 (the endpoint's max packet size is not
consulted) terminates the receive loop; the call then returns the sum of
the per-packet byte-counts if that sum reaches the buffer length, and
otherwise fails with `ShortPacket`.  No further iteration occurs, so the
transfer terminates. -/
theorem c1_short_packet_terminates (buf_len received recvd : Nat)
    (rest : List InStep) (hrun : received < buf_len) (hshort : recvd < 8) :
    in_transfer_loop 8 buf_len received (InStep.received recvd :: rest) =
      if received + recvd < buf_len then .err .ShortPacket
      else .ok (received + recvd) := by
  rw [in_transfer_loop, if_pos hrun]
  simp [hshort]

theorem c1_short_packet_terminates_witness :
    0 < 16 ∧ 4 < 8 ∧
      in_transfer_loop 8 16 0 [InStep.received 4] =
        (if 0 + 4 < 16 then XferResult.err .ShortPacket
         else XferResult.ok (0 + 4)) :=
  ⟨by decide, by decide,
    c1_short_packet_terminates 16 0 4 [] (by decide) (by decide)⟩

/-- C2: the completion check `Pipe::dispatch_result` never reports `Stall`
for any token and any hardware flag state — in particular, when only the
hardware STALL flag is raised it answers "pending" (`Ok(false)`), so the
retry wrapper keeps spinning until `SoftwareTimeout` instead of
surfacing `Stall` (the `Stall` arm of `dispatch_retries` is dead code). -/
theorem c2_stall_never_reported :
    (∀ (token : PToken) (hw : PipeHwFlags),
        dispatch_result token hw ≠ .error .Stall) ∧
      dispatch_result .In
        { trcpt0 := false, txstp := false, trfail := false, stall := true,
          errorflow := false, touter := false, dtgler := false } =
        .ok false := by
  refine ⟨fun token hw => ?_, by decide⟩
  rcases hw with ⟨t0, ts, tf, st, ef, fl, dt⟩
  cases token <;> cases t0 <;> cases ts <;> cases tf <;> cases st <;>
    cases ef <;> cases fl <;> cases dt <;> decide

/-- C3: on a fresh pool, `take_next` hands out address 1 by clearing bit
126, but `put_back 1` sets bit 1 — which is already set — so it is a no-op
on this state and a subsequent `take_next` returns address 2, never 1
again.  The two operations disagree on the bit layout (`take_next` uses
bit `127 - addr`, `put_back` uses bit `addr`). -/
theorem c3_put_back_wrong_bit :
    (take_next FULL_POOL).1 = some 1 ∧
      put_back (take_next FULL_POOL).2 1 = (take_next FULL_POOL).2 ∧
      (take_next (put_back (take_next FULL_POOL).2 1)).1 = some 2 := by
  decide

/-- C5 counterexample: a control transfer with no data buffer (`wLength=0`)
whose `bmRequestType` has the direction bit set (`0x80`, device-to-host)
issues no DATA stage but uses an OUT token for the STATUS stage, not IN as
the claim states. -/
theorem c5_status_out_for_device_to_host :
    control_transfer_stages 0x80 none =
        .ok { w_length := 0, data_stage := none, status_token := .Out } ∧
      control_transfer_stages 0x80 none ≠
        .ok { w_length := 0, data_stage := none, status_token := .In } := by
  decide

/-- C6 counterexample: a `max_packet_size` of 60 is encoded as the 32-byte
size class (largest power of two ≤ 60), not the 64-byte class the claim's
ceiling encoding would give. -/
theorem c6_size_class_of_60 :
    pipe_for_size 60 = .Bytes32 ∧ (pipe_for_size 60).bytes = 32 ∧
      (pipe_for_size 60).bytes ≠ 64 := by
  decide

/-- C4: whenever a poll completes successfully (`dispatch_result` answers
done) before the deadline, an IN token leaves the endpoint with its
`in_toggle` complemented and an OUT token with its `out_toggle`
complemented, and the dispatch returns success; and dispatching a SETUP
token presets both endpoint toggles to 1 (true). -/
theorem c4_data_toggle_invariant (ep : Endpoint) (token : PToken)
    (retries naks untl : Nat) (p : Poll) (rest : List Poll)
    (hnow : ¬ p.now > untl)
    (hok : dispatch_result token p.hw = .ok true) :
    ((token = .In →
        dispatch_retries_loop token retries untl naks ep (p :: rest) =
          ({ ep with in_toggle := !ep.in_toggle }, .ok)) ∧
      (token = .Out →
        dispatch_retries_loop token retries untl naks ep (p :: rest) =
          ({ ep with out_toggle := !ep.out_toggle }, .ok))) ∧
      ∀ e : Endpoint, (dispatch_packet e .Setup).in_toggle = true ∧
        (dispatch_packet e .Setup).out_toggle = true := by
  refine ⟨⟨fun ht => ?_, fun ht => ?_⟩, fun e => ⟨rfl, rfl⟩⟩ <;>
    subst ht <;> simp [dispatch_retries_loop, hnow, hok]

theorem c4_data_toggle_invariant_witness :
    dispatch_retries_loop .In 15 5 0
        { transfer_type := .Bulk, max_packet_size := 8,
          in_toggle := false, out_toggle := false }
        [{ now := 0,
           hw := { trcpt0 := true, txstp := false, trfail := false,
                   stall := false, errorflow := false, touter := false,
                   dtgler := false } }] =
      ({ transfer_type := .Bulk, max_packet_size := 8,
         in_toggle := true, out_toggle := false }, .ok) :=
  (c4_data_toggle_invariant
      { transfer_type := .Bulk, max_packet_size := 8,
        in_toggle := false, out_toggle := false } .In 15 0 5
      { now := 0,
        hw := { trcpt0 := true, txstp := false, trfail := false,
                stall := false, errorflow := false, touter := false,
                dtgler := false } } [] (by decide) (by decide)).1.1 rfl

/-- C5 (amended): a control transfer with no data buffer issues no DATA
stage and stores `wLength = 0`, and its STATUS stage token is determined
by the direction bit of `bmRequestType`: IN for a host-to-device request
(bit 7 clear) and OUT for a device-to-host request (bit 7 set) — the
opposite direction of the request, not unconditionally IN. -/
theorem c5_no_data_status_token (b : Nat) :
    control_transfer_stages b none =
      .ok { w_length := 0, data_stage := none,
            status_token := if b.testBit 7 then .Out else .In } := by
  have h : b &&& (0x1 <<< 7) = if b.testBit 7 then 0x80 else 0 := by
    have h2 := Nat.and_two_pow b 7
    cases hb : b.testBit 7 <;>
      simp [hb] at h2 <;> simpa [Nat.shiftLeft_eq] using h2
  unfold control_transfer_stages RequestType.direction
  cases hb : b.testBit 7 <;> simp [hb] at h <;> simp [h]

/-- C6 (amended): the packet-size class written by `PipeTable::pipe_for` is
the floor encoding: values below 8 are encoded as the 8-byte class, values
in `8..=1022` as the largest power of two ≤ `max_packet_size` (so never
more than the 512-byte class in that range), and values ≥ 1023 as the
1024-byte class. -/
theorem c6_size_class_floor (mps : Nat) :
    (mps < 8 → (pipe_for_size mps).bytes = 8) ∧
      (8 ≤ mps → mps ≤ 1022 →
        (pipe_for_size mps).bytes = 2 ^ Nat.log 2 mps) ∧
      (1023 ≤ mps → (pipe_for_size mps).bytes = 1024) := by
  refine ⟨fun h => ?_, fun h1 h2 => ?_, fun h => ?_⟩
  · unfold pipe_for_size
    split_ifs <;> first | rfl | omega
  · unfold pipe_for_size
    split_ifs with g1 g2 g3 g4 g5 g6 g7 <;> simp only [SizeW.bytes]
    · omega
    · rw [log2_interval mps 9 (by omega) (by omega)]; norm_num
    · rw [log2_interval mps 8 (by omega) (by omega)]; norm_num
    · rw [log2_interval mps 7 (by omega) (by omega)]; norm_num
    · rw [log2_interval mps 6 (by omega) (by omega)]; norm_num
    · rw [log2_interval mps 5 (by omega) (by omega)]; norm_num
    · rw [log2_interval mps 4 (by omega) (by omega)]; norm_num
    · rw [log2_interval mps 3 (by omega) (by omega)]; norm_num
  · unfold pipe_for_size
    rw [if_pos (by omega : mps ≥ 1023)]
    rfl

theorem c6_size_class_floor_witness :
    8 ≤ 60 ∧ 60 ≤ 1022 ∧ (pipe_for_size 60).bytes = 2 ^ Nat.log 2 60 :=
  ⟨by decide, by decide, (c6_size_class_floor 60).2.1 (by decide) (by decide)⟩

/-- C7: `NAK_LIMIT` is 15, and on a dispatch error other than `Stall`,
`DataToggle`, or `Flow` on an interrupt pipe, the retry wrapper increments
its transient-error counter and keeps polling, except that once the count
exceeds `retries` (called with `NAK_LIMIT`) it returns the most recent
error. -/
theorem c7_transient_retry_limit :
    NAK_LIMIT = 15 ∧
      ∀ (ep : Endpoint) (token : PToken) (retries naks untl : Nat)
        (p : Poll) (rest : List Poll) (e : PipeErr),
        ¬ p.now > untl →
        dispatch_result token p.hw = .error e →
        e ≠ .Stall → e ≠ .DataToggle →
        ¬(e = .Flow ∧ ep.transfer_type = .Interrupt) →
        dispatch_retries_loop token retries untl naks ep (p :: rest) =
          if naks + 1 > retries then (ep, .err e)
          else dispatch_retries_loop token retries untl (naks + 1) ep rest := by
  refine ⟨rfl, ?_⟩
  intro ep token retries naks untl p rest e hnow hres hs hd hf
  rw [dispatch_retries_loop, if_neg hnow, hres]
  cases e with
  | Stall => exact absurd rfl hs
  | DataToggle => exact absurd rfl hd
  | Flow =>
    have hni : ¬ ep.transfer_type = .Interrupt := fun h => hf ⟨rfl, h⟩
    simp [hni]
  | _ => rfl

theorem c7_transient_retry_limit_witness :
    dispatch_retries_loop .Out NAK_LIMIT 100 15
        { transfer_type := .Bulk, max_packet_size := 8,
          in_toggle := false, out_toggle := false }
        [{ now := 0,
           hw := { trcpt0 := false, txstp := false, trfail := true,
                   stall := false, errorflow := false, touter := false,
                   dtgler := false } }] =
      (if 15 + 1 > NAK_LIMIT then
        ({ transfer_type := .Bulk, max_packet_size := 8,
           in_toggle := false, out_toggle := false }, .err .TransferFail)
       else
        dispatch_retries_loop .Out NAK_LIMIT 100 (15 + 1)
          { transfer_type := .Bulk, max_packet_size := 8,
            in_toggle := false, out_toggle := false } []) :=
  c7_transient_retry_limit.2
    { transfer_type := .Bulk, max_packet_size := 8,
      in_toggle := false, out_toggle := false } .Out NAK_LIMIT 15 100
    { now := 0,
      hw := { trcpt0 := false, txstp := false, trfail := true,
              stall := false, errorflow := false, touter := false,
              dtgler := false } } [] .TransferFail
    (by decide) (by decide) (by decide) (by decide) (by decide)

/-- C8: once a device's error slot is populated, `UsbStack::update_dev`
returns `Ok(())` immediately with the cell untouched and no
transfer-issuing sub-operation in its trace, and any number of further
`update` cycles leaves the cell exactly as it is — the device's state
never advances again. -/
theorem c8_error_freezes_device (env : UpdateEnv) (cell : DevCell)
    (h : cell.dev.error.isSome = true) :
    update_dev env cell = (cell, .ok (), []) ∧
      ∀ envs : List UpdateEnv,
        List.foldl (fun c e => update_cycle e c) cell envs = cell := by
  have hdev : ∀ env' : UpdateEnv, update_dev env' cell = (cell, .ok (), []) :=
    fun env' => by unfold update_dev; rw [if_pos h]
  have hcyc : ∀ env' : UpdateEnv, update_cycle env' cell = cell :=
    fun env' => by unfold update_cycle; rw [hdev env']
  refine ⟨hdev env, fun envs => ?_⟩
  induction envs with
  | nil => rfl
  | cons e es ih => rw [List.foldl_cons, hcyc e, ih]

theorem c8_error_freezes_device_witness :
    frozen_cell.dev.error.isSome = true ∧
      update_dev trivial_env frozen_cell = (frozen_cell, .ok (), []) ∧
      List.foldl (fun c e => update_cycle e c) frozen_cell
        [trivial_env, trivial_env, trivial_env] = frozen_cell :=
  ⟨rfl, (c8_error_freezes_device trivial_env frozen_cell rfl).1,
    (c8_error_freezes_device trivial_env frozen_cell rfl).2
      [trivial_env, trivial_env, trivial_env]⟩

/-- C9: `DescriptorParser::next` yields nothing on an empty buffer, and
whenever it yields a descriptor the cursor strictly advances while staying
within the buffer, so iteration terminates; but on the buffer `[0x01]`
(one descriptor of declared length 1 at the end of the buffer) it reads
the type byte `buf[1]` past the end of the buffer — a panic — instead of
stopping, refuting the out-of-bounds-free part of the claim. -/
theorem c9_parser_step :
    descriptor_next [] 0 = .stop ∧
      descriptor_next [1] 0 = .panicked ∧
      ∀ (buf : List Nat) (pos n : Nat),
        descriptor_next buf pos = .yielded n → pos < n ∧ n ≤ buf.length := by
  refine ⟨by decide, by decide, ?_⟩
  intro buf pos n h
  simp only [descriptor_next] at h
  split_ifs at h with h1 h2 h3 h4 h5 <;>
    first
      | (cases h; exact ⟨by omega, by omega⟩)
      | exact absurd h (by simp)

theorem c9_parser_step_witness :
    descriptor_next [2, 3, 9] 0 = .yielded 2 ∧ 0 < 2 ∧ 2 ≤ 3 :=
  ⟨by decide, c9_parser_step.2.2 [2, 3, 9] 0 2 (by decide)⟩

/-- C10: the field setters `RequestType::set_kind` and `set_direction` mask
the variant's discriminant with the unshifted field-width mask, so storing
`Class` (0x20), `Vendor` (0x40) or `DeviceToHost` (0x80) clears the field
to 0 and the accessor then reads back `Standard` / `HostToDevice` instead
of the variant that was set; construction through
`From<(direction, kind, recipient)>` stores all three fields correctly. -/
theorem c10_setters_lose_fields :
    (∀ b : Nat, RequestType.set_kind b .Class &&& 0x60 = 0 ∧
        RequestType.kind (RequestType.set_kind b .Class) = some .Standard) ∧
      (∀ b : Nat, RequestType.set_kind b .Vendor &&& 0x60 = 0 ∧
        RequestType.kind (RequestType.set_kind b .Vendor) = some .Standard) ∧
      (∀ b : Nat, RequestType.set_direction b .DeviceToHost &&& 0x80 = 0 ∧
        RequestType.direction (RequestType.set_direction b .DeviceToHost) =
          some .HostToDevice) ∧
      ∀ (d : RequestDirection) (k : RequestKind) (r : RequestRecipient),
        RequestType.direction (RequestType.from_triple d k r) = some d ∧
          RequestType.kind (RequestType.from_triple d k r) = some k ∧
          RequestType.recipient (RequestType.from_triple d k r) = some r := by
  have hck : RequestKind.val .Class &&& 0x3 = 0 := by decide
  have hvk : RequestKind.val .Vendor &&& 0x3 = 0 := by decide
  have hdd : RequestDirection.val .DeviceToHost &&& 0x1 = 0 := by decide
  have hk9 : (0x9f : Nat) &&& 0x60 = 0 := by decide
  have hd7 : (0x7f : Nat) &&& 0x80 = 0 := by decide
  refine ⟨fun b => ?_, fun b => ?_, fun b => ?_, fun d k r => ?_⟩
  · unfold RequestType.set_kind
    rw [hck, Nat.or_zero]
    constructor
    · exact and_and_eq_zero b _ _ hk9
    · unfold RequestType.kind
      rw [show (0x3 <<< 5 : Nat) = 0x60 from rfl,
        and_and_eq_zero b _ _ hk9]
      rfl
  · unfold RequestType.set_kind
    rw [hvk, Nat.or_zero]
    constructor
    · exact and_and_eq_zero b _ _ hk9
    · unfold RequestType.kind
      rw [show (0x3 <<< 5 : Nat) = 0x60 from rfl,
        and_and_eq_zero b _ _ hk9]
      rfl
  · unfold RequestType.set_direction
    rw [hdd, Nat.or_zero]
    constructor
    · exact and_and_eq_zero b _ _ hd7
    · unfold RequestType.direction
      rw [show (0x1 <<< 7 : Nat) = 0x80 from rfl,
        and_and_eq_zero b _ _ hd7]
      rfl
  · cases d <;> cases k <;> cases r <;> exact ⟨by decide, by decide, by decide⟩

end UsbHost
